import Mathlib

/-!
Shallow embedding of the longest-prefix-match trie code of the rislive
repository (trie.go, and the trie2 / earlier trie.go variants), together
with theorems settling the specification claims about it.

Conventions of the embedding:
* a Go `net.IP` is the list of its bytes (4 bytes for an IPv4 address
  produced by `net.ParseCIDR`, 16 for an IPv6 one); bytes are `Nat`;
* a Go `*net.IPNet` is a structure of address bytes and mask bytes;
  a nilable pointer is `Option` (or a dedicated `nil` constructor for
  the recursive node type);
* Go functions that can fail, and Go code that dereferences a nil
  pointer (a runtime panic), are embedded in `Except String`;
* mutation is embedded as functional update: an operation that mutates
  a trie in place returns the updated trie.
-/

namespace Rislive

/-- Go net.IP, modelled as the list of its bytes. `net.ParseCIDR` yields
4 bytes for an IPv4 network and 16 for an IPv6 one. -/
abbrev IP := List Nat

/-- Go net.IPNet: the network address bytes and the mask bytes. -/
structure IPNet where
  ip : IP
  mask : List Nat
  deriving DecidableEq

/-- Go stdlib net.IP.To4, modelled from the standard library (the repo
calls it): a 4-byte address is returned as is; a 16-byte v4-mapped
address (ten zero bytes then 0xff 0xff) is shortened to its last 4
bytes; anything else gives nil. -/
def to4 (ip : IP) : Option IP :=
  if ip.length = 4 then some ip
  else if ip.length = 16 ∧ ip.take 12 = [0, 0, 0, 0, 0, 0, 0, 0, 0, 0, 255, 255] then
    some (ip.drop 12)
  else none

/-- trie2's af (src/unnamed/part_001 lines 11-16): the address family of
an IP, 4 when To4 succeeds and 6 otherwise. -/
def af (ip : IP) : Nat :=
  match to4 ip with
  | some _ => 4
  | none => 6

/-- trie2's sameFamily (src/unnamed/part_001 lines 19-26): true exactly
when the two networks' addresses have the same address family. -/
def sameFamily (a b : IPNet) : Bool :=
  af a.ip == af b.ip

/-- trie2's Node (src/unnamed/part_001 lines 34-38): a 256-way branching
node. The Go field `children [256]*Node` is a byte-indexed array of
nilable pointers, embedded as a finite association list from byte to
child; `isLeaf` and the nilable `ip *net.IPNet` field are kept as is.
trie2's Insert never sets the `ip` field, so it stays `none` in every
node the code builds. -/
inductive TNode : Type where
  | node (children : List (Nat × TNode)) (isLeaf : Bool) (ip : Option IPNet) : TNode

/-- Byte-indexed read of the children array: Go `node.children[b]`. -/
def getChild : List (Nat × TNode) → Nat → Option TNode
  | [], _ => none
  | (b2, c) :: rest, b => if b2 = b then some c else getChild rest b

/-- Byte-indexed write of the children array: Go `node.children[b] = c`. -/
def setChild : List (Nat × TNode) → Nat → TNode → List (Nat × TNode)
  | [], b, c => [(b, c)]
  | (b2, c2) :: rest, b, c =>
    if b2 = b then (b, c) :: rest else (b2, c2) :: setChild rest b c

/-- A freshly allocated trie2 node, Go `&Node{}`: no children, not a
leaf, nil ip. -/
def TNode.empty : TNode := .node [] false none

/-- The leaf flag of a node. -/
def TNode.isLeaf : TNode → Bool
  | .node _ leaf _ => leaf

/-- The (never written) ip field of a node. -/
def TNode.ipField : TNode → Option IPNet
  | .node _ _ ip => ip

/-- The loop body of trie2's Insert (src/unnamed/part_001 lines 50-59):
walk the address bytes from the given node, allocating a fresh empty
child where `children[b]` is nil, and set `isLeaf` on the node reached
when the bytes run out. Mutation along the walked path is embedded as
functional update of that path. -/
def insertPath : List Nat → TNode → TNode
  | [], .node ch _ ip => .node ch true ip
  | b :: bs, .node ch leaf ip =>
    .node (setChild ch b (insertPath bs ((getChild ch b).getD TNode.empty))) leaf ip

/-- The loop of trie2's GetNetblock (src/unnamed/part_001 lines 93-102):
walk the address bytes from the given node; nil out (none) as soon as a
required child is missing, otherwise return the node reached when the
bytes run out. -/
def walkPath : List Nat → TNode → Option TNode
  | [], t => some t
  | b :: bs, .node ch _ _ =>
    match getChild ch b with
    | none => none
    | some c => walkPath bs c

/-- The number of loop iterations the byte walk of GetNetblock performs
on the same input: it mirrors walkPath step for step (one count per
consumed byte, stopping where the walk stops). -/
def walkSteps : List Nat → TNode → Nat
  | [], _ => 0
  | b :: bs, .node ch _ _ =>
    match getChild ch b with
    | none => 1
    | some c => 1 + walkSteps bs c

/-- The number of loop iterations trie2's Insert performs: its
`for _, b := range ip.IP` loop runs exactly once per address byte. -/
def insertSteps (nb : IPNet) : Nat := nb.ip.length

/-- The in-place clearing of the found node's leaf flag performed by
DeleteNetblock (Go `node.isLeaf = false` through the pointer returned by
GetNetblock), embedded as a functional update along the same byte path. -/
def clearLeafPath : List Nat → TNode → TNode
  | [], .node ch _ ip => .node ch false ip
  | b :: bs, .node ch leaf ip =>
    match getChild ch b with
    | none => .node ch leaf ip
    | some c => .node (setChild ch b (clearLeafPath bs c)) leaf ip

/-- trie2's PatriciaTrie (src/unnamed/part_001 lines 29-31): a single
root node, shared by both address families. -/
structure PatriciaTrie where
  root : TNode

/-- trie2's NewPatriciaTrie (src/unnamed/part_001 lines 41-45): a trie
with one fresh empty root. It takes no parameters. -/
def NewPatriciaTrie : PatriciaTrie := ⟨TNode.empty⟩

/-- trie2's Insert (src/unnamed/part_001 lines 50-59). It walks only the
address bytes `ip.IP`; the mask and everything else of its argument are
ignored, no record payload exists, nothing is returned, and no failure
is possible. -/
def PatriciaTrie.Insert (t : PatriciaTrie) (ip : IPNet) : PatriciaTrie :=
  ⟨insertPath ip.ip t.root⟩

/-- trie2's GetNetblock (src/unnamed/part_001 lines 93-102): walk the
address bytes; nil when a required child is missing, otherwise the node
reached (whether or not it is a leaf). -/
def PatriciaTrie.GetNetblock (t : PatriciaTrie) (netblock : IPNet) : Option TNode :=
  walkPath netblock.ip t.root

/-- trie2's Lookup (src/unnamed/part_001 lines 62-65): the body is
stubbed out in the source (the real call is commented away) and it
returns nil on every input. -/
def PatriciaTrie.Lookup (t : PatriciaTrie) (ip : IPNet) : Option TNode :=
  none

/-- trie2's DeleteNetblock (src/unnamed/part_001 lines 105-112): find
the exact node with GetNetblock; when absent return the error
"Netblock ... not found" (the Go code formats the netblock into the
message; the embedding keeps the fixed text), otherwise clear that
node's isLeaf flag in place. No node is ever removed and no size
counter exists. -/
def PatriciaTrie.DeleteNetblock (t : PatriciaTrie) (netblock : IPNet) :
    Except String PatriciaTrie :=
  match t.GetNetblock netblock with
  | none => .error "Netblock not found"
  | some _ => .ok ⟨clearLeafPath netblock.ip t.root⟩

/-- Go stdlib networkNumberAndMask, modelled from the standard library
(called by net.IPNet.Contains): the network address converted to its
4-byte form when possible, and the mask adjusted to the same width; nil
(none) on inconsistent widths. -/
def numberAndMask (n : IPNet) : Option (IP × List Nat) :=
  let nn :=
    match to4 n.ip with
    | some x => some x
    | none => if n.ip.length = 16 then some n.ip else none
  match nn with
  | none => none
  | some adr =>
    if n.mask.length = 4 then
      if adr.length = 4 then some (adr, n.mask) else none
    else if n.mask.length = 16 then
      if adr.length = 4 then some (adr, n.mask.drop 12) else some (adr, n.mask)
    else none

/-- Go stdlib net.IPNet.Contains, modelled from the standard library
(the repo calls it in Node.Search): normalise both sides with To4, then
compare the masked bytes; false when the widths differ or the network
is inconsistent. -/
def containsIP (n : IPNet) (ip : IP) : Bool :=
  match numberAndMask n with
  | none => false
  | some (adr, m) =>
    let q := (to4 ip).getD ip
    q.length == adr.length &&
      (List.zip (List.zip adr m) q).all
        (fun p => Nat.land p.1.1 p.1.2 == Nat.land p.2 p.1.2)

/-- trie.go's Prefix struct (src/trie.go lines 22-25): a nilable net.IP
and a nilable *net.IPNet. -/
structure Pfx where
  ip : Option IP
  network : Option IPNet

/-- trie.go's Node (src/trie.go lines 32-38): name, nilable *Prefix, and
two nilable child pointers. The nil pointer is the `nil` constructor
(the parent back-pointer and the per-node mutex carry no data relevant
to the embedded operations and are omitted). -/
inductive GNode : Type where
  | nil : GNode
  | node (name : String) (pfx : Option Pfx) (l : GNode) (r : GNode) : GNode

/-- The message a Go nil-pointer dereference panic is embedded as. -/
def nilPanic : String := "panic: runtime error: nil pointer dereference"

/-- The evaluation of `n.l.Prefix.Network.Contains(ip)` in Node.Search
(src/trie.go line 87), applied to the child in question: panics (error)
when the node, its Prefix or its Network is nil. -/
def nodeContains : GNode → IP → Except String Bool
  | .nil, _ => .error nilPanic
  | .node _ none _ _, _ => .error nilPanic
  | .node _ (some p) _ _, ip =>
    match p.network with
    | none => .error nilPanic
    | some lnet => .ok (containsIP lnet ip)

/-- trie.go's Node.Search (src/trie.go lines 80-105). A nil ip is the
"ip to search is nil" error. Otherwise the code evaluates
`n.l.Prefix.Network.Contains(ip)` (a panic when the receiver or its
left child or that child's Prefix or Network is nil, embedded as an
error); on containment it recurses left, wrapping any error; when the
left result is nil it recurses right unconditionally (a panic when the
right child is nil, since Search on a nil receiver dereferences `n.l`),
wrapping any error; finally it returns whatever result it has. -/
def gsearch : GNode → Option IP → Except String (Option IPNet)
  | _, none => .error "ip to search is nil"
  | .nil, some _ => .error nilPanic
  | .node _ _ l r, some ip =>
    match nodeContains l ip with
    | .error e => .error e
    | .ok true =>
      match gsearch l (some ip) with
      | .error e => .error ("failed searching a left branch: " ++ e)
      | .ok (some res) => .ok (some res)
      | .ok none =>
        match gsearch r (some ip) with
        | .error e => .error ("failed searching a right branch: " ++ e)
        | .ok res2 => .ok res2
    | .ok false =>
      match gsearch r (some ip) with
      | .error e => .error ("failed searching a right branch: " ++ e)
      | .ok res2 => .ok res2

/-- trie.go's Tree (src/trie.go lines 16-19): a nilable root pointer and
the `elements` counter ("total number of elements stored in the tree"). -/
structure GTree where
  Root : GNode
  elements : Int

/-- trie.go's New (src/trie.go lines 41-54). The call to the Go stdlib
net.ParseCIDR on the root string is modelled as an input: its outcome
(an IP and an IPNet, or a parse error) is passed in. On failure New
wraps the error and builds nothing; on success it builds a tree whose
single root node carries the parsed prefix and whose elements counter
is 1. -/
def trieNew (root : String) (parsed : Except String (IP × IPNet)) : Except String GTree :=
  match parsed with
  | .error e => .error ("parsing cidr: " ++ root ++ " failed: " ++ e)
  | .ok (ip, n) =>
    .ok { Root := .node root (some ⟨some ip, some n⟩) .nil .nil, elements := 1 }

/-- trie.go's Tree.Insert (src/trie.go lines 76-78): the body is the
single statement `return true`; nothing is stored, no record argument
exists, the elements counter is untouched, and no failure is possible. -/
def GTree.Insert (t : GTree) (n : Option IPNet) : Bool :=
  true

/-- trie.go's Tree.Lpm (src/trie.go lines 66-73): error on a nil
address, otherwise Root.Search (a panic — embedded error — when Root is
nil, since Search on a nil receiver dereferences `n.l`). -/
def GTree.Lpm (t : GTree) (n : Option IP) : Except String (Option IPNet) :=
  match n with
  | none => .error "can not LPM a nil address"
  | some ip => gsearch t.Root (some ip)

/-- The earlier trie variant's Tree (src/unnamed/part_003 lines 15-18):
same shape as trie.go's. -/
structure GTree3 where
  Root : GNode
  elements : Int

/-- The earlier trie variant's Tree.Lpm (src/unnamed/part_003 lines
65-76): error on a nil address; otherwise the search legs are
unimplemented (two comments only) and it always returns the error
"failed to find match for: ...", regardless of the tree's contents. -/
def GTree3.Lpm (t : GTree3) (n : Option IP) : Except String (Option IPNet) :=
  match n with
  | none => .error "can not LPM a nil address"
  | some _ => .error "failed to find match"

/-- The earlier trie variant's Tree.Insert (src/unnamed/part_003 lines
79-81): also the single statement `return true`. -/
def GTree3.Insert (t : GTree3) (n : Option IPNet) : Bool :=
  true

/-- Extract the success value of an Except, used only to observe
results in theorem statements. -/
def exceptOpt {α : Type} : Except String α → Option α
  | .ok a => some a
  | .error _ => none

/-- The network 10.0.0.0/8 as net.ParseCIDR yields it: 4 address bytes
and a 4-byte mask. -/
def nb10 : IPNet := ⟨[10, 0, 0, 0], [255, 0, 0, 0]⟩

/-- The network 192.168.0.0/16 (IPv4). -/
def nb192 : IPNet := ⟨[192, 168, 0, 0], [255, 255, 0, 0]⟩

/-- The network 2001:db8::/32 (IPv6): 16 address bytes and a 16-byte
mask. -/
def nbV6 : IPNet :=
  ⟨[32, 1, 13, 184, 0, 0, 0, 0, 0, 0, 0, 0, 0, 0, 0, 0],
   [255, 255, 255, 255, 0, 0, 0, 0, 0, 0, 0, 0, 0, 0, 0, 0]⟩

/-- A malformed network: a 3-byte address, consistent with neither
address family. -/
def nbMal : IPNet := ⟨[10, 0, 0], []⟩

/-- The address 192.168.0.1. -/
def qIP : IP := [192, 168, 0, 1]

/-- The tree trie.go's New builds for the root string 10.0.0.0/8. -/
def gT1 : GTree :=
  { Root := .node "10.0.0.0/8" (some ⟨some [10, 0, 0, 0], some nb10⟩) .nil .nil
    elements := 1 }

/-- A tree of the earlier trie variant with the same single root. -/
def gT3 : GTree3 :=
  { Root := .node "10.0.0.0/8" (some ⟨some [10, 0, 0, 0], some nb10⟩) .nil .nil
    elements := 1 }

theorem getChild_setChild (ch : List (Nat × TNode)) (b : Nat) (c : TNode) :
    getChild (setChild ch b c) b = some c := by
  induction ch with
  | nil => simp [setChild, getChild]
  | cons hd tl ih =>
    obtain ⟨b2, c2⟩ := hd
    by_cases h : b2 = b
    · simp [setChild, getChild, h]
    · simp [setChild, getChild, h, ih]

theorem walkPath_insertPath (bs : List Nat) (t : TNode) :
    ∃ ch ip, walkPath bs (insertPath bs t) = some (.node ch true ip) := by
  induction bs generalizing t with
  | nil =>
    obtain ⟨ch, leaf, ip⟩ := t
    exact ⟨ch, ip, rfl⟩
  | cons b bs ih =>
    obtain ⟨ch, leaf, ip⟩ := t
    simpa [insertPath, walkPath, getChild_setChild] using
      ih ((getChild ch b).getD TNode.empty)

theorem walkPath_insertPath_isSome (bs : List Nat) (t : TNode) :
    (walkPath bs (insertPath bs t)).isSome = true := by
  obtain ⟨ch, ip, h⟩ := walkPath_insertPath bs t
  simp [h]

theorem walkSteps_le (bs : List Nat) (t : TNode) :
    walkSteps bs t ≤ bs.length := by
  induction bs generalizing t with
  | nil => simp [walkSteps]
  | cons b bs ih =>
    obtain ⟨ch, leaf, ip⟩ := t
    simp only [walkSteps]
    cases getChild ch b with
    | none => simp
    | some c =>
      have := ih c
      simpa [Nat.add_comm] using Nat.add_le_add_left this 1

/-- Sanity coupling of the step counter with the walk itself: whenever
the walk reaches a node (GetNetblock succeeds), the counter counted
every byte. -/
theorem walkSteps_of_isSome (bs : List Nat) (t : TNode)
    (h : (walkPath bs t).isSome = true) : walkSteps bs t = bs.length := by
  induction bs generalizing t with
  | nil => simp [walkSteps]
  | cons b bs ih =>
    obtain ⟨ch, leaf, ip⟩ := t
    simp only [walkPath] at h
    simp only [walkSteps]
    cases hg : getChild ch b with
    | none => rw [hg] at h; simp at h
    | some c =>
      rw [hg] at h
      simp [ih c h, Nat.add_comm]

/-- C1: the claim says longestMatch returns the deepest Record-bearing
node on the query's bit path, or none, and never an error for a mere
absence of a match. Evaluated on the code at the failing input, the
opposite holds: trie.go's Lpm on the freshly constructed single-root
tree dereferences the root's nil left child inside Node.Search and
panics (embedded as an error), and the earlier variant's Lpm returns
the error "failed to find match" for every non-nil address, whatever
the tree holds. -/
theorem C1_lpm_absence_is_error :
    gT1.Lpm (some qIP) = Except.error nilPanic ∧
    (∀ (t : GTree3) (a : IP), t.Lpm (some a) = Except.error "failed to find match") :=
  ⟨rfl, fun _ _ => rfl⟩

/-- C2: the claim says insert(p, r) followed by exactLookup(p) returns
r. Evaluated on the code: trie2's Insert takes no record at all and
GetNetblock after it returns a bare node whose only payload field (ip)
is nil — no record is stored or retrievable — and trie.go's Insert is
the constant statement `return true`, storing nothing for any input. -/
theorem C2_insert_stores_no_record :
    (NewPatriciaTrie.Insert nb10).GetNetblock nb10 = some (TNode.node [] true none) ∧
    (∀ (t : GTree) (n : Option IPNet), t.Insert n = true) :=
  ⟨rfl, fun _ _ => rfl⟩

/-- C3: the claim says insert returns the previous record or an
explicit none and bumps a size counter on first insertion. Evaluated on
the code: trie2's Insert returns nothing (re-inserting the same network
is the identity on the trie, with no previous value reported), and
trie.go's Insert returns the constant true while the elements counter
of the tree it was called on stays at its construction value 1. -/
theorem C3_insert_returns_no_previous :
    (NewPatriciaTrie.Insert nb10).Insert nb10 = NewPatriciaTrie.Insert nb10 ∧
    gT1.Insert (some nb192) = true ∧ gT1.elements = 1 :=
  ⟨rfl, rfl, rfl⟩

/-- C4: the claim says the not-found outcomes of exactLookup, delete
and longestMatch are a normal none, never an error. Evaluated on the
code at the failing inputs: DeleteNetblock of an absent netblock
returns the error "Netblock not found", the earlier variant's Lpm
returns the error "failed to find match", and only GetNetblock indeed
returns a plain nil. -/
theorem C4_notfound_outcomes :
    NewPatriciaTrie.DeleteNetblock nb10 = Except.error "Netblock not found" ∧
    gT3.Lpm (some qIP) = Except.error "failed to find match" ∧
    NewPatriciaTrie.GetNetblock nb10 = none :=
  ⟨rfl, rfl, rfl⟩

/-- C5 counterexample: the claim says a malformed input (here a 3-byte
address, consistent with no family) makes insert fail with
InvalidPrefix and leaves the stored state exactly as before. On the
code, Insert cannot fail: the malformed netblock is absent before the
call and present (a leaf-marked node) after it, so the state was
mutated and no error was reported. -/
theorem C5_cex_malformed_insert_mutates :
    NewPatriciaTrie.GetNetblock nbMal = none ∧
    (NewPatriciaTrie.Insert nbMal).GetNetblock nbMal = some (TNode.node [] true none) :=
  ⟨rfl, rfl⟩

/-- C5 as amended: trie2's Insert performs no validation and cannot
fail — for every input, malformed or not, the walked path exists
afterwards (the trie is mutated, never rejected) — and the only input
validation in the code is construction: trie.go's New propagates a CIDR
parse failure as an error and builds no tree. -/
theorem C5_insert_never_fails_new_validates :
    (∀ (t : PatriciaTrie) (nb : IPNet), ((t.Insert nb).GetNetblock nb).isSome = true) ∧
    (∀ (root e : String),
      trieNew root (Except.error e)
        = Except.error ("parsing cidr: " ++ root ++ " failed: " ++ e)) :=
  ⟨fun t nb => walkPath_insertPath_isSome nb.ip t.root, fun _ _ => rfl⟩

/-- C6: the claim says delete prunes nodes that became Record-less and
childless, so every internal node keeps a Record-bearing descendant.
Evaluated on the code at the failing input (insert 10.0.0.0/8 into an
empty trie, then delete it): the exact node is still present afterwards
with its leaf flag cleared and no leaf anywhere below it, and the
intermediate node one byte down the path is still present too — nothing
is pruned. -/
theorem C6_delete_never_prunes :
    Option.map (fun t => t.GetNetblock nb10)
        (exceptOpt ((NewPatriciaTrie.Insert nb10).DeleteNetblock nb10))
      = some (some (TNode.node [] false none)) ∧
    Option.map (fun t => (t.GetNetblock ⟨[10], []⟩).isSome)
        (exceptOpt ((NewPatriciaTrie.Insert nb10).DeleteNetblock nb10))
      = some true :=
  ⟨rfl, rfl⟩

/-- C7: every engine operation terminates, with walk depth bounded by
the family's bit width. In the embedding every operation is a total
function; this theorem bounds the byte walks: for an address of the
shape net.ParseCIDR produces (4 or 16 bytes), the GetNetblock/Delete
walk and the Insert loop run at most 128 steps, and at most 32 when the
address is the 4-byte IPv4 form. -/
theorem C7_walks_bounded (t : PatriciaTrie) (nb : IPNet)
    (h : nb.ip.length = 4 ∨ nb.ip.length = 16) :
    walkSteps nb.ip t.root ≤ 128 ∧ insertSteps nb ≤ 128 ∧
    (nb.ip.length = 4 → walkSteps nb.ip t.root ≤ 32 ∧ insertSteps nb ≤ 32) := by
  have hle := walkSteps_le nb.ip t.root
  unfold insertSteps
  rcases h with h | h <;> rw [h] at hle <;>
    exact ⟨by omega, by omega, fun h4 => ⟨by omega, by omega⟩⟩

/-- C7 witness: the bounds instantiated at the concrete IPv4 network
10.0.0.0/8 on the fresh trie. -/
theorem C7_walks_bounded_witness :
    (nb10.ip.length = 4 ∨ nb10.ip.length = 16) ∧
    (walkSteps nb10.ip NewPatriciaTrie.root ≤ 128 ∧ insertSteps nb10 ≤ 128 ∧
      (nb10.ip.length = 4 → walkSteps nb10.ip NewPatriciaTrie.root ≤ 32 ∧
        insertSteps nb10 ≤ 32)) :=
  ⟨Or.inl rfl, C7_walks_bounded NewPatriciaTrie nb10 (Or.inl rfl)⟩

/-- C8: a query of one family never matches a stored network of the
other family. On the code this holds: the only longest-match entry
point of the trie2 variant, Lookup, returns nil on every input (its
body is stubbed), so in particular it never returns a cross-family
match; and the family guard sameFamily is false on every cross-family
pair, as the claim's cited helper requires. -/
theorem C8_family_isolation :
    (∀ (t : PatriciaTrie) (q : IPNet), t.Lookup q = none) ∧
    (∀ a b : IPNet, af a.ip ≠ af b.ip → sameFamily a b = false) := by
  refine ⟨fun _ _ => rfl, fun a b h => ?_⟩
  simpa [sameFamily] using h

/-- C8 witness: the cross-family pair 192.168.0.0/16 and 2001:db8::/32
has distinct families and sameFamily rejects it. -/
theorem C8_family_isolation_witness :
    af nb192.ip ≠ af nbV6.ip ∧ sameFamily nb192 nbV6 = false :=
  ⟨by decide, C8_family_isolation.2 nb192 nbV6 (by decide)⟩

/-- C9 counterexample: the claim says construction takes no parameters
and a fresh engine has size 0. trie.go's New (modelled with the
successful stdlib parse of its root string passed in) returns a tree
whose elements counter is 1, not 0 — its root argument is a parameter
producing an initial stored element. -/
theorem C9_cex_new_not_empty :
    Option.map GTree.elements
        (exceptOpt (trieNew "10.0.0.0/8" (Except.ok ([10, 0, 0, 0], nb10))))
      = some 1 :=
  rfl

/-- C9 as amended: trie2's NewPatriciaTrie takes no parameters and
yields a trie with a single empty root (one root in total, not one per
family) on which GetNetblock of any netblock with a nonempty address
and Lookup of anything return none; trie.go's New instead requires a
root CIDR string and, on a successful parse, yields a single-root tree
whose elements counter starts at 1. -/
theorem C9_construction (nb : IPNet) (h : nb.ip ≠ []) :
    NewPatriciaTrie.GetNetblock nb = none ∧
    NewPatriciaTrie.Lookup nb = none ∧
    (∀ (root : String) (p : IP × IPNet),
      Option.map GTree.elements (exceptOpt (trieNew root (Except.ok p))) = some 1) := by
  refine ⟨?_, rfl, fun root p => by cases p; rfl⟩
  cases hb : nb.ip with
  | nil => exact absurd hb h
  | cons b bs =>
    simp [PatriciaTrie.GetNetblock, NewPatriciaTrie, hb, walkPath, TNode.empty, getChild]

/-- C9 witness: the amended construction facts at the concrete network
10.0.0.0/8. -/
theorem C9_construction_witness :
    nb10.ip ≠ [] ∧
    (NewPatriciaTrie.GetNetblock nb10 = none ∧
      NewPatriciaTrie.Lookup nb10 = none ∧
      (∀ (root : String) (p : IP × IPNet),
        Option.map GTree.elements (exceptOpt (trieNew root (Except.ok p))) = some 1)) :=
  ⟨by decide, C9_construction nb10 (by decide)⟩

/-- C10: trie2's Insert and GetNetblock depend only on the address
bytes of their argument and ignore the mask entirely: inserting an
address under one mask and looking it up under any other mask yields
the very same non-nil node, so distinct-length networks on the same
address are conflated. -/
theorem C10_mask_ignored (t : PatriciaTrie) (adr : IP) (m1 m2 : List Nat) :
    t.Insert ⟨adr, m1⟩ = t.Insert ⟨adr, m2⟩ ∧
    (t.Insert ⟨adr, m1⟩).GetNetblock ⟨adr, m2⟩
      = (t.Insert ⟨adr, m1⟩).GetNetblock ⟨adr, m1⟩ ∧
    ((t.Insert ⟨adr, m1⟩).GetNetblock ⟨adr, m2⟩).isSome = true :=
  ⟨rfl, rfl, walkPath_insertPath_isSome adr t.root⟩

end Rislive
